import Mathlib

-- Verification of the SmartLocker access-control kiosk
-- (src/Frontend/Front-locker.py and src/Frontend/finger_service.py).
-- The Python source is shallowly embedded below: device responses are the
-- return codes of the adafruit_fingerprint contract, SQLite tables are
-- association lists, console prints are string logs, and the two concurrent
-- threads of the kiosk are small-step programs interleaved by a schedule.

namespace SmartLocker

-- ===== Device response codes (adafruit_fingerprint return codes) =====

/-- Return codes of the adafruit_fingerprint sensor operations.  The Python
code only ever distinguishes OK, NOFINGER and everything else, so all other
codes are collapsed into a single numbered constructor. -/
inductive SensorCode where
  | OK
  | NOFINGER
  | other (code : Nat)
deriving DecidableEq

-- ===== check_finger (finger_service.py lines 82-101) =====

/-- Device behaviour observed by one call of check_finger: the responses the
sensor gives to get_image, image_2_tz, finger_search, and the matched id. -/
structure SensorOracle where
  get_image : SensorCode
  image_2_tz : Nat → SensorCode
  finger_search : SensorCode
  finger_id : Nat

/-- Embedding of FingerprintService.check_finger: returns none when the
service is unavailable, when no finger image is read, when template
conversion fails, or when the search misses; otherwise the matched slot. -/
def check_finger (available : Bool) (o : SensorOracle) : Option Nat :=
  if available = false then none
  else if o.get_image ≠ SensorCode.OK then none
  else if o.image_2_tz 1 ≠ SensorCode.OK then none
  else if o.finger_search ≠ SensorCode.OK then none
  else some o.finger_id

/-- Position of the locking actuator (spec section 3, ActuatorState). -/
inductive Position where
  | Locked
  | Unlocked
deriving DecidableEq

/-- The ActuatorState of the spec: position plus last activation time.
check_finger never touches it; it is threaded through runChecks so that
preservation is a statement about the embedding, not an accident. -/
structure ActuatorState where
  position : Position
  last_activated_at : Nat
deriving DecidableEq

/-- A sequence of consecutive check_finger calls (each with the device
behaviour it observed), threading the actuator state through. -/
def runChecks (os : List SensorOracle) (act : ActuatorState) :
    List (Option Nat) × ActuatorState :=
  match os with
  | [] => ([], act)
  | o :: rest =>
    let r := check_finger true o
    let next := runChecks rest act
    (r :: next.1, next.2)

-- ===== find_empty_slot (finger_service.py lines 23-34) =====

/-- The scan loop of find_empty_slot: for i in range(1, 128), return the
first slot whose load_model call does not answer OK.  The second argument is
the current slot id, the third the number of iterations left. -/
def scanSlots (load_model : Nat → SensorCode) : Nat → Nat → Option Nat
  | _, 0 => none
  | i, fuel + 1 =>
    if load_model i ≠ SensorCode.OK then some i
    else scanSlots load_model (i + 1) fuel

/-- Embedding of FingerprintService.find_empty_slot: none when the service is
unavailable, otherwise the first id in 1..127 whose template fails to load. -/
def find_empty_slot (available : Bool) (load_model : Nat → SensorCode) : Option Nat :=
  if available = false then none
  else scanSlots load_model 1 127

-- ===== enroll_finger (finger_service.py lines 36-80) =====

/-- Device behaviour observed by one enroll_finger run: get_image is indexed
by the number of get_image calls made so far (the three wait loops call it
repeatedly); image_2_tz is indexed by the template buffer (1 or 2). -/
structure EnrollDevice where
  getImage : Nat → SensorCode
  imageTz : Nat → SensorCode
  createModel : SensorCode
  storeModel : SensorCode

/-- First index at or after start where the stream answers target, searching
at most fuel calls.  Models the unbounded Python spin loops, observed through
a window of fuel device calls: none means the loop was still spinning. -/
def findFrom (s : Nat → SensorCode) (target : SensorCode) : Nat → Nat → Option Nat
  | _, 0 => none
  | start, fuel + 1 =>
    if s start = target then some start
    else findFrom s target (start + 1) fuel

/-- Result of one enroll_finger run: the returned boolean and the console
messages printed along the way, in order. -/
structure EnrollRun where
  result : Bool
  log : List String

def msgPlace (location_id : Nat) : String :=
  "Coloque o dedo para cadastrar na posição " ++ toString location_id ++ "..."

def msgImg1 : String := "Imagem 1 capturada."

def msgRemove : String := "Remova o dedo..."

def msgSame : String := "Coloque o MESMO dedo novamente..."

def msgImg2 : String := "Imagem 2 capturada."

def msgMismatch : String := "As digitais não coincidem."

def msgStoreFail : String := "Erro ao salvar na memória flash."

def msgSuccess (location_id : Nat) : String :=
  "Sucesso! Salvo no ID " ++ toString location_id

/-- Embedding of FingerprintService.enroll_finger.  The three while loops
(await first finger, await removal, await second finger) have no timeout in
the source; here each is observed through a window of fuel get_image calls
and the whole run answers none when a loop is still spinning at the end of
its window.  Every early return False of the source is a some with result
false and the log of the prints made up to that point. -/
def enroll_finger (available : Bool) (dev : EnrollDevice) (fuel : Nat)
    (location_id : Nat) : Option EnrollRun :=
  if available = false then some { result := false, log := [] }
  else
    match findFrom dev.getImage SensorCode.OK 0 fuel with
    | none => none
    | some i1 =>
      if dev.imageTz 1 ≠ SensorCode.OK then
        some { result := false, log := [msgPlace location_id, msgImg1] }
      else
        match findFrom dev.getImage SensorCode.NOFINGER (i1 + 1) fuel with
        | none => none
        | some i2 =>
          match findFrom dev.getImage SensorCode.OK (i2 + 1) fuel with
          | none => none
          | some _ =>
            if dev.imageTz 2 ≠ SensorCode.OK then
              some { result := false,
                     log := [msgPlace location_id, msgImg1, msgRemove, msgSame, msgImg2] }
            else if dev.createModel ≠ SensorCode.OK then
              some { result := false,
                     log := [msgPlace location_id, msgImg1, msgRemove, msgSame,
                             msgImg2, msgMismatch] }
            else if dev.storeModel ≠ SensorCode.OK then
              some { result := false,
                     log := [msgPlace location_id, msgImg1, msgRemove, msgSame,
                             msgImg2, msgStoreFail] }
            else
              some { result := true,
                     log := [msgPlace location_id, msgImg1, msgRemove, msgSame,
                             msgImg2, msgSuccess location_id] }

-- ===== Credential store (Front-locker.py lines 92-171) =====

/-- Model of a bcrypt hash: bcrypt.hashpw is injective in the password for a
fixed salt and bcrypt.checkpw(pw, h) succeeds exactly when pw is the password
h was produced from.  This embeds the contract of the external bcrypt
library, which is outside the repository. -/
structure BcryptHash where
  pw : String
  salt : Nat
deriving DecidableEq

def hashpw (password : String) (salt : Nat) : BcryptHash :=
  { pw := password, salt := salt }

def checkpw (password : String) (h : BcryptHash) : Bool :=
  password == h.pw

/-- The SQLite database: the admins table (username unique) and the
fingerprints table (finger_id is the primary key). -/
structure DB where
  admins : List (String × BcryptHash)
  fingerprints : List (Nat × String)

def emptyDB : DB := { admins := [], fingerprints := [] }

/-- Embedding of init_db: creates the tables and, when the admins table is
empty, inserts the bootstrap record admin / admin123.  The salt drawn by
bcrypt.gensalt is a parameter. -/
def init_db (salt : Nat) (db : DB) : DB :=
  if db.admins.length = 0 then
    { db with admins := db.admins ++ [("admin", hashpw "admin123" salt)] }
  else db

/-- Embedding of check_admin_login: look the username up in the admins table
and compare the password against the stored hash; an unknown username
answers false. -/
def check_admin_login (username password : String) (db : DB) : Bool :=
  match db.admins.find? (fun r => r.1 == username) with
  | none => false
  | some r => checkpw password r.2

/-- Embedding of save_finger_map: INSERT OR REPLACE keyed on the finger_id
primary key, so any previous row with the same id is replaced. -/
def save_finger_map (finger_id : Nat) (username : String)
    (t : List (Nat × String)) : List (Nat × String) :=
  (finger_id, username) :: t.filter (fun r => !(r.1 == finger_id))

/-- Embedding of get_user_by_finger: the username stored for the slot, or the
sentinel Desconhecido when no row exists. -/
def get_user_by_finger (finger_id : Nat) (t : List (Nat × String)) : String :=
  match t.find? (fun r => r.1 == finger_id) with
  | none => "Desconhecido"
  | some r => r.2

/-- Number of fingerprint rows carrying a given finger_id. -/
def countSlotRows (finger_id : Nat) : List (Nat × String) → Nat
  | [] => 0
  | r :: rest => (if r.1 = finger_id then 1 else 0) + countSlotRows finger_id rest

-- ===== The UI enrollment worker (Front-locker.py lines 404-452) =====

/-- Keyword-acceptable parameter names of FingerprintService.enroll_finger
(besides self): def enroll_finger(self, location_id). -/
def enroll_finger_params : List String := ["location_id"]

/-- Outcome of a Python call: a normal return or a raised exception. -/
inductive PyOutcome (α : Type) where
  | ok (a : α)
  | raised (exn : String)
deriving DecidableEq

/-- Python call binding: a call whose keyword arguments include a name the
signature does not accept raises TypeError before the body runs. -/
def callable_accepts (params kwargs : List String) : Bool :=
  kwargs.all (fun k => params.any (fun p => decide (p = k)))

/-- The call self.finger_service.enroll_finger(slot, callback_status=...) as
the worker performs it: the keyword arguments are checked against the
signature of enroll_finger; only on acceptance does the body run. -/
def call_enroll_finger (available : Bool) (dev : EnrollDevice) (fuel : Nat)
    (location_id : Nat) (kwargs : List String) : PyOutcome (Option EnrollRun) :=
  if callable_accepts enroll_finger_params kwargs then
    PyOutcome.ok (enroll_finger available dev fuel location_id)
  else
    PyOutcome.raised "TypeError"

/-- The mutable state the enrollment worker touches: the fingerprints table,
the is_enrolling_finger flag and the last status message shown. -/
structure UiState where
  fingerprints : List (Nat × String)
  is_enrolling_finger : Bool
  lastMessage : String

/-- The finally block of the worker: is_enrolling_finger is reset. -/
def finishEnroll (st : UiState) : UiState :=
  { st with is_enrolling_finger := false }

/-- Embedding of the worker closure inside KioskApp.enroll_finger_ui:
find a free slot, call enroll_finger with the callback_status keyword
argument, store the mapping only on a successful return, catch any raised
exception, and reset the flag in the finally block. -/
def enroll_worker (load_model : Nat → SensorCode) (dev : EnrollDevice)
    (fuel : Nat) (user_name : String) (st : UiState) : UiState :=
  finishEnroll
    (match find_empty_slot true load_model with
     | none => { st with lastMessage := "Memória do sensor cheia." }
     | some slot =>
       match call_enroll_finger true dev fuel slot ["callback_status"] with
       | PyOutcome.raised e => { st with lastMessage := e }
       | PyOutcome.ok none => st
       | PyOutcome.ok (some run) =>
         if run.result = true then
           { st with
             fingerprints := save_finger_map slot user_name st.fingerprints,
             lastMessage := "Sucesso" }
         else { st with lastMessage := "Erro cadastro" })

-- ===== open_locker and actuation requests (Front-locker.py 653-664) =====

/-- Level driven onto the solenoid GPIO pin. -/
inductive GpioLevel where
  | high
  | low
deriving DecidableEq

/-- Embedding of KioskApp.open_locker: with GPIO available it drives the pin
high, sleeps, and drives it low; it consults no position, no timestamp and
no cooldown.  The value is the sequence of pin writes of one call. -/
def open_locker_trace (gpioAvailable : Bool) : List GpioLevel :=
  if gpioAvailable then [GpioLevel.high, GpioLevel.low] else []

/-- Number of assert (drive-high) operations in a pin-write trace; each
assert starts one physical assert/deassert cycle. -/
def assertCount : List GpioLevel → Nat
  | [] => 0
  | GpioLevel.high :: rest => assertCount rest + 1
  | GpioLevel.low :: rest => assertCount rest

/-- Interleaving of the pin writes of two concurrent open_locker threads:
true schedules a step of the first thread, false of the second; an exhausted
schedule appends the remainders. -/
def interleave : List Bool → List GpioLevel → List GpioLevel → List GpioLevel
  | [], xs, ys => xs ++ ys
  | true :: rest, xs, ys =>
    match xs with
    | [] => ys
    | x :: xs => x :: interleave rest xs ys
  | false :: rest, xs, ys =>
    match ys with
    | [] => xs
    | y :: ys => y :: interleave rest xs ys

/-- Interleaving in which the second request asserts the pin while the first
request still holds it high: the second arrives while the actuator is
unlocked, immediately (hence within any cooldown window) after the first. -/
def overlappedSched : List Bool := [true, false, false, true]

-- ===== Poller / enrollment interleaving (Front-locker.py 371-452) =====

/-- Logical owner issuing a sensor device call. -/
inductive Owner where
  | poller
  | enroll
deriving DecidableEq

/-- Program counter of one iteration of finger_listen_loop: about to read
is_enrolling_finger; about to call check_finger (the flag was observed
false); call done; or the iteration was skipped (flag observed true). -/
inductive PollerPc where
  | atRead
  | atCall
  | done
  | skipped
deriving DecidableEq

/-- Program counter of the enrollment path: enroll_finger_ui is about to set
is_enrolling_finger; the worker is about to call find_empty_slot (a device
call); about to make the enroll_finger device calls; the finally block is
about to clear the flag; finished. -/
inductive EnrollPc where
  | atSetFlag
  | atFindSlot
  | atEnrollCall
  | atClearFlag
  | done
deriving DecidableEq

/-- Shared state of the two threads: the is_enrolling_finger flag, each
thread program counter, and the trace of device calls in the order the
sensor observes them. -/
structure Sys where
  flag : Bool
  pollerPc : PollerPc
  enrollPc : EnrollPc
  trace : List Owner

def initSys : Sys :=
  { flag := false, pollerPc := PollerPc.atRead, enrollPc := EnrollPc.atSetFlag,
    trace := [] }

/-- One atomic step of the poller thread (finger_listen_loop body): reading
the flag decides between skipping the iteration and proceeding to the
check_finger device call. -/
def pollerStep (s : Sys) : Sys :=
  match s.pollerPc with
  | PollerPc.atRead =>
    if s.flag then { s with pollerPc := PollerPc.skipped }
    else { s with pollerPc := PollerPc.atCall }
  | PollerPc.atCall =>
    { s with pollerPc := PollerPc.done, trace := s.trace ++ [Owner.poller] }
  | _ => s

/-- One atomic step of the enrollment path (enroll_finger_ui then its worker
thread): set the flag, make the find_empty_slot device call, make the
enroll_finger device calls, clear the flag in the finally block. -/
def enrollStep (s : Sys) : Sys :=
  match s.enrollPc with
  | EnrollPc.atSetFlag => { s with enrollPc := EnrollPc.atFindSlot, flag := true }
  | EnrollPc.atFindSlot =>
    { s with enrollPc := EnrollPc.atEnrollCall, trace := s.trace ++ [Owner.enroll] }
  | EnrollPc.atEnrollCall =>
    { s with enrollPc := EnrollPc.atClearFlag, trace := s.trace ++ [Owner.enroll] }
  | EnrollPc.atClearFlag => { s with enrollPc := EnrollPc.done, flag := false }
  | EnrollPc.done => s

/-- Run an interleaving: true schedules a poller step, false an enrollment
step. -/
def run : List Bool → Sys → Sys
  | [], s => s
  | b :: rest, s => run rest (if b then pollerStep s else enrollStep s)

/-- Whether an enroll call occurs somewhere in the list. -/
def containsEnroll : List Owner → Bool
  | [] => false
  | Owner.enroll :: _ => true
  | _ :: rest => containsEnroll rest

/-- Whether some poller call is followed, later, by an enroll call. -/
def pollerThenEnroll : List Owner → Bool
  | [] => false
  | Owner.poller :: rest => containsEnroll rest || pollerThenEnroll rest
  | Owner.enroll :: rest => pollerThenEnroll rest

/-- Whether the device observes interleaved ownership: some poller call
strictly between two enroll calls. -/
def hasInterleaved : List Owner → Bool
  | [] => false
  | Owner.enroll :: rest => pollerThenEnroll rest || hasInterleaved rest
  | Owner.poller :: rest => hasInterleaved rest

/-- The racy schedule: the poller reads the flag (still false), enrollment
sets the flag and makes its first device call, the poller then makes its
already-decided check_finger call, and enrollment continues. -/
def raceSched : List Bool := [true, false, false, true, false]

/-- Invariant of every interleaving that starts with the flag-set step: while
enrollment is between its flag set and flag clear, the poller can only be
before its read or skipped, and the trace holds only enrollment calls; once
the flag is cleared the poller may call, but only after both enrollment
calls. -/
def Inv (s : Sys) : Prop :=
  match s.enrollPc with
  | EnrollPc.atSetFlag => False
  | EnrollPc.atFindSlot =>
    s.flag = true ∧ (s.pollerPc = PollerPc.atRead ∨ s.pollerPc = PollerPc.skipped) ∧
      s.trace = []
  | EnrollPc.atEnrollCall =>
    s.flag = true ∧ (s.pollerPc = PollerPc.atRead ∨ s.pollerPc = PollerPc.skipped) ∧
      s.trace = [Owner.enroll]
  | EnrollPc.atClearFlag =>
    s.flag = true ∧ (s.pollerPc = PollerPc.atRead ∨ s.pollerPc = PollerPc.skipped) ∧
      s.trace = [Owner.enroll, Owner.enroll]
  | EnrollPc.done =>
    s.flag = false ∧
      ((s.pollerPc ≠ PollerPc.done ∧ s.trace = [Owner.enroll, Owner.enroll]) ∨
       (s.pollerPc = PollerPc.done ∧
         s.trace = [Owner.enroll, Owner.enroll, Owner.poller]))

-- ===== Concrete device behaviours used as inputs =====

/-- A device on which no finger is ever presented. -/
def noFingerDev : EnrollDevice :=
  { getImage := fun _ => SensorCode.NOFINGER
    imageTz := fun _ => SensorCode.OK
    createModel := SensorCode.OK
    storeModel := SensorCode.OK }

/-- A get_image stream that cooperates with the enroll protocol: finger on
the first call, lifted on the second, placed again on the third. -/
def goodImageStream : Nat → SensorCode :=
  fun k => if k = 0 then SensorCode.OK
           else if k = 1 then SensorCode.NOFINGER
           else SensorCode.OK

/-- A run in which both captures succeed but create_model rejects them: the
two presentations did not belong to the same finger. -/
def devMismatch : EnrollDevice :=
  { getImage := goodImageStream
    imageTz := fun _ => SensorCode.OK
    createModel := SensorCode.other 10
    storeModel := SensorCode.OK }

/-- A run in which the first template conversion fails: a device error. -/
def devTzError : EnrollDevice :=
  { getImage := goodImageStream
    imageTz := fun _ => SensorCode.other 3
    createModel := SensorCode.OK
    storeModel := SensorCode.OK }

/-- A check_finger call observing no finger on the sensor. -/
def oracleNoFinger : SensorOracle :=
  { get_image := SensorCode.NOFINGER
    image_2_tz := fun _ => SensorCode.OK
    finger_search := SensorCode.OK
    finger_id := 0 }

/-- A check_finger call in which capture, conversion and search succeed and
slot 7 matches. -/
def oracleHit : SensorOracle :=
  { get_image := SensorCode.OK
    image_2_tz := fun _ => SensorCode.OK
    finger_search := SensorCode.OK
    finger_id := 7 }

def actLocked : ActuatorState := { position := Position.Locked, last_activated_at := 0 }

/-- A sensor on which every slot already holds a loadable template. -/
def loadAllOK : Nat → SensorCode := fun _ => SensorCode.OK

/-- A sensor on which slot 1 is occupied and slot 2 is the first free one. -/
def loadBusy1Free2 : Nat → SensorCode :=
  fun i => if i = 1 then SensorCode.OK else SensorCode.other 12

/-- A sensor on which already the first load_model call fails: slot 1 free. -/
def loadFree1 : Nat → SensorCode := fun _ => SensorCode.other 12

def uiSt0 : UiState :=
  { fingerprints := [], is_enrolling_finger := true, lastMessage := "" }

-- =====================================================================
-- Theorems
-- =====================================================================

/-- Claim C6: check_finger answers none whenever no finger is present, the
template conversion fails, or the search misses; it answers the matched slot
when all three device steps succeed; and arbitrarily many consecutive calls
leave the actuator state untouched. -/
theorem check_finger_safe (os : List SensorOracle) (act : ActuatorState) :
    (runChecks os act).2 = act ∧
    (∀ o : SensorOracle,
        (o.get_image ≠ SensorCode.OK ∨ o.image_2_tz 1 ≠ SensorCode.OK ∨
          o.finger_search ≠ SensorCode.OK) →
        check_finger true o = none) ∧
    (∀ o : SensorOracle, o.get_image = SensorCode.OK →
        o.image_2_tz 1 = SensorCode.OK → o.finger_search = SensorCode.OK →
        check_finger true o = some o.finger_id) := by
  refine ⟨?_, ?_, ?_⟩
  · induction os with
    | nil => rfl
    | cons o rest ih => simpa [runChecks] using ih
  · intro o h
    rcases h with h | h | h
    · simp [check_finger, h]
    · by_cases hg : o.get_image = SensorCode.OK <;> simp [check_finger, hg, h]
    · by_cases hg : o.get_image = SensorCode.OK <;>
        by_cases ht : o.image_2_tz 1 = SensorCode.OK <;>
          simp [check_finger, hg, ht, h]
  · intro o h1 h2 h3
    simp [check_finger, h1, h2, h3]

/-- Witness for C6 at concrete inputs: one no-finger call and one matching
call, with the actuator initially locked. -/
theorem check_finger_safe_witness :
    (runChecks [oracleNoFinger] actLocked).2 = actLocked ∧
    check_finger true oracleNoFinger = none ∧
    check_finger true oracleHit = some 7 :=
  ⟨(check_finger_safe [oracleNoFinger] actLocked).1,
   (check_finger_safe [oracleNoFinger] actLocked).2.1 oracleNoFinger
     (Or.inl (by decide)),
   (check_finger_safe [] actLocked).2.2 oracleHit rfl rfl rfl⟩

theorem countSlotRows_filter (finger_id : Nat) (t : List (Nat × String)) :
    countSlotRows finger_id (t.filter (fun r => !(r.1 == finger_id))) = 0 := by
  induction t with
  | nil => rfl
  | cons r rest ih =>
    by_cases h : r.1 = finger_id
    · simp [List.filter_cons, h, ih]
    · simp [List.filter_cons, h, countSlotRows, ih]

/-- Claim C9: save_finger_map is an upsert — writing identity a then identity
b for the same slot leaves get_user_by_finger at b, and the slot maps to
exactly one identity afterwards. -/
theorem save_finger_map_upsert (t : List (Nat × String)) (finger_id : Nat)
    (a b : String) :
    get_user_by_finger finger_id
        (save_finger_map finger_id b (save_finger_map finger_id a t)) = b ∧
    countSlotRows finger_id
        (save_finger_map finger_id b (save_finger_map finger_id a t)) = 1 := by
  constructor
  · simp [get_user_by_finger, save_finger_map, List.find?_cons_of_pos]
  · simp [save_finger_map, countSlotRows, countSlotRows_filter]

/-- Claim C10: a slot with no stored mapping makes get_user_by_finger answer
the sentinel Desconhecido rather than fail. -/
theorem get_user_by_finger_unknown (t : List (Nat × String)) (finger_id : Nat)
    (h : ∀ r ∈ t, r.1 ≠ finger_id) :
    get_user_by_finger finger_id t = "Desconhecido" := by
  have hf : t.find? (fun r => r.1 == finger_id) = none := by
    rw [List.find?_eq_none]
    intro r hr
    simp only [beq_iff_eq]
    exact h r hr
  simp [get_user_by_finger, hf]

/-- Witness for C10: slot 2 is unmapped in a table holding only slot 1. -/
theorem get_user_by_finger_unknown_witness :
    get_user_by_finger 2 [(1, "Joao")] = "Desconhecido" :=
  get_user_by_finger_unknown [(1, "Joao")] 2 (by decide)

/-- Claim C7: after init_db on an empty store a bootstrap admin record
exists: admin / admin123 authenticates, admin with a wrong password does
not, and any unknown username does not. -/
theorem bootstrap_admin_login (salt : Nat) :
    check_admin_login "admin" "admin123" (init_db salt emptyDB) = true ∧
    check_admin_login "admin" "wrong" (init_db salt emptyDB) = false ∧
    ∀ u pw : String, u ≠ "admin" →
      check_admin_login u pw (init_db salt emptyDB) = false := by
  refine ⟨rfl, rfl, ?_⟩
  intro u pw h
  have hb : ("admin" == u) = false := by
    cases hbe : ("admin" == u)
    · rfl
    · exact absurd (eq_of_beq hbe) (fun e => h e.symm)
  simp [check_admin_login, init_db, emptyDB, hashpw, List.find?_cons, hb]

/-- Witness for C7 at the concrete salt 0 and the unknown username bob. -/
theorem bootstrap_admin_login_witness :
    check_admin_login "admin" "admin123" (init_db 0 emptyDB) = true ∧
    check_admin_login "admin" "wrong" (init_db 0 emptyDB) = false ∧
    check_admin_login "bob" "x" (init_db 0 emptyDB) = false :=
  ⟨(bootstrap_admin_login 0).1, (bootstrap_admin_login 0).2.1,
   (bootstrap_admin_login 0).2.2 "bob" "x" (by decide)⟩

theorem scanSlots_eq_none (load_model : Nat → SensorCode) :
    ∀ fuel i, (∀ k, i ≤ k → k < i + fuel → load_model k = SensorCode.OK) →
      scanSlots load_model i fuel = none := by
  intro fuel
  induction fuel with
  | zero => intro i _; rfl
  | succ n ih =>
    intro i h
    have h0 : load_model i = SensorCode.OK := h i le_rfl (by omega)
    have hrest : scanSlots load_model (i + 1) n = none :=
      ih (i + 1) (fun k hk1 hk2 => h k (by omega) (by omega))
    simp [scanSlots, h0, hrest]

theorem scanSlots_eq_some (load_model : Nat → SensorCode) :
    ∀ fuel i j, scanSlots load_model i fuel = some j →
      i ≤ j ∧ j < i + fuel ∧ load_model j ≠ SensorCode.OK ∧
        ∀ k, i ≤ k → k < j → load_model k = SensorCode.OK := by
  intro fuel
  induction fuel with
  | zero => intro i j h; simp [scanSlots] at h
  | succ n ih =>
    intro i j h
    by_cases hl : load_model i = SensorCode.OK
    · have h' : scanSlots load_model (i + 1) n = some j := by
        simpa [scanSlots, hl] using h
      obtain ⟨h1, h2, h3, h4⟩ := ih (i + 1) j h'
      refine ⟨by omega, by omega, h3, fun k hk1 hk2 => ?_⟩
      rcases Nat.eq_or_lt_of_le hk1 with he | hlt
      · rw [← he]; exact hl
      · exact h4 k hlt hk2
    · have hij : i = j := by simpa [scanSlots, hl] using h
      subst hij
      exact ⟨le_rfl, by omega, hl, fun k hk1 hk2 => by omega⟩

/-- Claim C8: find_empty_slot answers none when the service is unavailable,
answers none when every slot in the 1..127 scan space loads a template, and
any answered slot is the lowest id in the scan space whose template load
fails. -/
theorem find_empty_slot_spec (load_model : Nat → SensorCode) :
    find_empty_slot false load_model = none ∧
    ((∀ i, 1 ≤ i → i ≤ 127 → load_model i = SensorCode.OK) →
      find_empty_slot true load_model = none) ∧
    ∀ j, find_empty_slot true load_model = some j →
      1 ≤ j ∧ j ≤ 127 ∧ load_model j ≠ SensorCode.OK ∧
        ∀ i, 1 ≤ i → i < j → load_model i = SensorCode.OK := by
  refine ⟨rfl, ?_, ?_⟩
  · intro h
    have : scanSlots load_model 1 127 = none :=
      scanSlots_eq_none load_model 127 1 (fun k hk1 hk2 => h k hk1 (by omega))
    simpa [find_empty_slot] using this
  · intro j hj
    have hj' : scanSlots load_model 1 127 = some j := by
      simpa [find_empty_slot] using hj
    obtain ⟨h1, h2, h3, h4⟩ := scanSlots_eq_some load_model 127 1 j hj'
    exact ⟨h1, by omega, h3, h4⟩

/-- Witness for C8: a fully occupied sensor scans to none, and a sensor with
slot 1 occupied and slot 2 free answers a valid free slot. -/
theorem find_empty_slot_spec_witness :
    find_empty_slot false loadAllOK = none ∧
    find_empty_slot true loadAllOK = none ∧
    (1 ≤ 2 ∧ 2 ≤ 127 ∧ loadBusy1Free2 2 ≠ SensorCode.OK) :=
  ⟨(find_empty_slot_spec loadAllOK).1,
   (find_empty_slot_spec loadAllOK).2.1 (fun _ _ _ => rfl),
   ⟨((find_empty_slot_spec loadBusy1Free2).2.2 2 (by decide)).1,
    ((find_empty_slot_spec loadBusy1Free2).2.2 2 (by decide)).2.1,
    ((find_empty_slot_spec loadBusy1Free2).2.2 2 (by decide)).2.2.1⟩⟩

theorem assertCount_append (s t : List GpioLevel) :
    assertCount (s ++ t) = assertCount s + assertCount t := by
  induction s with
  | nil => simp [assertCount]
  | cons x r ih =>
    cases x <;> simp [assertCount, ih, Nat.add_right_comm]

theorem assertCount_interleave (sched : List Bool) :
    ∀ xs ys : List GpioLevel,
      assertCount (interleave sched xs ys) = assertCount xs + assertCount ys := by
  induction sched with
  | nil => intro xs ys; simp [interleave, assertCount_append]
  | cons b rest ih =>
    intro xs ys
    cases b
    · cases ys with
      | nil => simp [interleave, assertCount]
      | cons y ys =>
        cases y <;> simp [interleave, assertCount, ih, Nat.add_assoc]
    · cases xs with
      | nil => simp [interleave, assertCount]
      | cons x xs =>
        cases x <;> simp [interleave, assertCount, ih, Nat.add_right_comm]

/-- Claim C2, counterexample: in the interleaving where the second
open_locker request asserts the pin while the first still holds it high
(second request arrives while the actuator is unlocked, immediately after
the first, hence within any cooldown window), the device performs two
assert operations, not the single cycle the claim demands — the second
request is not dropped. -/
theorem overlapping_requests_two_cycles :
    interleave overlappedSched (open_locker_trace true) (open_locker_trace true) =
      [GpioLevel.high, GpioLevel.high, GpioLevel.low, GpioLevel.low] ∧
    assertCount
        (interleave overlappedSched (open_locker_trace true)
          (open_locker_trace true)) ≠ 1 := by
  exact ⟨rfl, by decide⟩

/-- Claim C2, amended: open_locker keeps no position, timestamp or cooldown
state, so no activation request is ever dropped or queued — in every
interleaving of two concurrent open_locker calls (in particular when the
second arrives within any cooldown window of the first, while the pin is
still asserted) the actuator performs exactly two assert/deassert cycles,
one per request; the only duplicate absorption in the source is the
3-second sleep inside finger_listen_loop, which delays only that loop. -/
theorem interleaved_requests_cycle_count (sched : List Bool) :
    assertCount
        (interleave sched (open_locker_trace true) (open_locker_trace true)) = 2 := by
  rw [assertCount_interleave sched]
  rfl

theorem findFrom_eq_none (s : Nat → SensorCode) (target : SensorCode)
    (h : ∀ k, s k ≠ target) : ∀ fuel start, findFrom s target start fuel = none := by
  intro fuel
  induction fuel with
  | zero => intro start; rfl
  | succ n ih => intro start; simp [findFrom, h start, ih]

/-- Claim C3, counterexample: on a device that never reports a finger the
enrollment run never reaches a terminal result — the first wait loop of
enroll_finger spins forever, for every bound on the number of device calls
observed. -/
theorem enroll_no_finger_never_terminates :
    ¬ ∃ fuel : Nat, (enroll_finger true noFingerDev fuel 1).isSome = true := by
  rintro ⟨fuel, h⟩
  have hn : ∀ k, noFingerDev.getImage k ≠ SensorCode.OK := fun k => by
    simp [noFingerDev]
  simp [enroll_finger, findFrom_eq_none noFingerDev.getImage SensorCode.OK hn] at h

/-- Claim C3, amended: the three waits of enroll_finger are unbounded spins
with no enrollment timeout — the run reaches a terminal result only if the
sensor eventually reports the awaited conditions; whenever get_image never
answers OK, the run is still spinning after any number of device calls. -/
theorem enroll_stuck_without_ok (dev : EnrollDevice) (location_id fuel : Nat)
    (h : ∀ k, dev.getImage k ≠ SensorCode.OK) :
    enroll_finger true dev fuel location_id = none := by
  simp [enroll_finger, findFrom_eq_none dev.getImage SensorCode.OK h]

/-- Witness for the amended C3 at the device that never reports a finger. -/
theorem enroll_stuck_without_ok_witness :
    enroll_finger true noFingerDev 5 1 = none :=
  enroll_stuck_without_ok noFingerDev 1 5 (fun _ => by simp [noFingerDev])

/-- Claim C5, counterexample: a run failing because the two captures do not
match (create_model rejects) and a run failing from a device error at
template conversion return the same value False at the result interface of
enroll_finger — the mismatch reason is not distinguishable there. -/
theorem mismatch_result_equals_deviceerror_result :
    Option.map EnrollRun.result (enroll_finger true devMismatch 5 1) =
      Option.map EnrollRun.result (enroll_finger true devTzError 5 1) ∧
    Option.map EnrollRun.result (enroll_finger true devMismatch 5 1) = some false := by
  exact ⟨rfl, rfl⟩

/-- Claim C5, amended: when both captures succeed and create_model rejects
them, enroll_finger terminates in failure (returns False, like a device
error does) and the distinct mismatch reason appears only in the console
log, not in the returned result. -/
theorem mismatch_failed_with_log_reason (dev : EnrollDevice)
    (location_id fuel i1 i2 i3 : Nat)
    (h1 : findFrom dev.getImage SensorCode.OK 0 fuel = some i1)
    (h2 : dev.imageTz 1 = SensorCode.OK)
    (h3 : findFrom dev.getImage SensorCode.NOFINGER (i1 + 1) fuel = some i2)
    (h4 : findFrom dev.getImage SensorCode.OK (i2 + 1) fuel = some i3)
    (h5 : dev.imageTz 2 = SensorCode.OK)
    (h6 : dev.createModel ≠ SensorCode.OK) :
    enroll_finger true dev fuel location_id =
      some { result := false,
             log := [msgPlace location_id, msgImg1, msgRemove, msgSame,
                     msgImg2, msgMismatch] } := by
  simp [enroll_finger, h1, h2, h3, h4, h5, h6]

/-- Witness for the amended C5 at the concrete mismatching device. -/
theorem mismatch_failed_with_log_reason_witness :
    enroll_finger true devMismatch 5 1 =
      some { result := false,
             log := [msgPlace 1, msgImg1, msgRemove, msgSame,
                     msgImg2, msgMismatch] } :=
  mismatch_failed_with_log_reason devMismatch 1 5 0 1 2 rfl rfl rfl rfl rfl
    (by decide)

/-- Claim C4: whenever the worker inside enroll_finger_ui finds a free slot,
its call to enroll_finger passes the callback_status keyword argument that
the signature does not accept, so the call raises TypeError; the worker
catches the exception, writes no fingerprint mapping, and the finally block
resets is_enrolling_finger to False. -/
theorem enroll_worker_typeerror (load_model : Nat → SensorCode)
    (dev : EnrollDevice) (fuel : Nat) (user_name : String) (st : UiState)
    (slot : Nat) (h : find_empty_slot true load_model = some slot) :
    call_enroll_finger true dev fuel slot ["callback_status"] =
      PyOutcome.raised "TypeError" ∧
    (enroll_worker load_model dev fuel user_name st).fingerprints =
      st.fingerprints ∧
    (enroll_worker load_model dev fuel user_name st).is_enrolling_finger = false := by
  have hacc : callable_accepts enroll_finger_params ["callback_status"] = false := by
    decide
  refine ⟨?_, ?_, ?_⟩
  · simp [call_enroll_finger, hacc]
  · simp [enroll_worker, finishEnroll, h, call_enroll_finger, hacc]
  · simp [enroll_worker, finishEnroll, h, call_enroll_finger, hacc]

/-- Witness for C4: a sensor whose first slot is free, a device with no
finger, and the initial worker state. -/
theorem enroll_worker_typeerror_witness :
    call_enroll_finger true noFingerDev 1 1 ["callback_status"] =
      PyOutcome.raised "TypeError" ∧
    (enroll_worker loadFree1 noFingerDev 1 "Joao" uiSt0).fingerprints =
      uiSt0.fingerprints ∧
    (enroll_worker loadFree1 noFingerDev 1 "Joao" uiSt0).is_enrolling_finger =
      false :=
  enroll_worker_typeerror loadFree1 noFingerDev 1 "Joao" uiSt0 1 (by decide)

theorem inv_pollerStep (s : Sys) (h : Inv s) : Inv (pollerStep s) := by
  obtain ⟨f, p, e, t⟩ := s
  cases e <;> cases p <;> cases f <;> simp_all [Inv, pollerStep]

theorem inv_enrollStep (s : Sys) (h : Inv s) : Inv (enrollStep s) := by
  obtain ⟨f, p, e, t⟩ := s
  cases e <;> cases p <;> cases f <;> simp_all [Inv, enrollStep]

theorem inv_run (sched : List Bool) (s : Sys) (h : Inv s) : Inv (run sched s) := by
  induction sched generalizing s with
  | nil => exact h
  | cons b rest ih =>
    cases b
    · exact ih _ (inv_enrollStep s h)
    · exact ih _ (inv_pollerStep s h)

theorem inv_no_interleave (s : Sys) (h : Inv s) : hasInterleaved s.trace = false := by
  obtain ⟨f, p, e, t⟩ := s
  cases e
  · exact absurd h (by simp [Inv])
  · obtain ⟨-, -, ht⟩ := h
    show hasInterleaved t = false
    rw [show t = [] from ht]
    rfl
  · obtain ⟨-, -, ht⟩ := h
    show hasInterleaved t = false
    rw [show t = [Owner.enroll] from ht]
    rfl
  · obtain ⟨-, -, ht⟩ := h
    show hasInterleaved t = false
    rw [show t = [Owner.enroll, Owner.enroll] from ht]
    rfl
  · obtain ⟨-, hd⟩ := h
    show hasInterleaved t = false
    rcases hd with ⟨-, ht⟩ | ⟨-, ht⟩
    · rw [show t = [Owner.enroll, Owner.enroll] from ht]
      rfl
    · rw [show t = [Owner.enroll, Owner.enroll, Owner.poller] from ht]
      rfl

/-- Claim C1, counterexample: in the schedule where the poller reads
is_enrolling_finger just before enroll_finger_ui sets it, the poller issues
its check_finger device call between the enrollment workflow device calls —
the sensor observes interleaved calls from the two logical owners, refuting
the claim for this interleaving. -/
theorem poller_enroll_interleaving_exists :
    hasInterleaved (run raceSched initSys).trace = true := by decide

/-- Claim C1, amended: the is_enrolling_finger flag only excludes poller
iterations whose flag read happens after the flag is set — in every
interleaving that starts with the enrollment flag-set step (the poller
iteration has not yet read the flag), the sensor observes no poller call
between enrollment device calls; exclusion can fail only for a poller
iteration whose flag read preceded the set, as the counterexample shows,
because nothing makes the workflow wait for an in-flight poller call. -/
theorem flag_set_first_excludes_poller (sched : List Bool) :
    hasInterleaved (run sched (enrollStep initSys)).trace = false :=
  inv_no_interleave _ (inv_run sched _ ⟨rfl, Or.inl rfl, rfl⟩)

end SmartLocker
